import Mathlib

/-! Verification development for the strategy-performance-analytics backtest
    core: a shallow embedding of src/execution.py, src/backtest.py and
    src/trades.py. Pandas float columns are modelled as exact rationals and
    NaN cells as Option.none; a Python function that can raise is modelled as
    an Option-valued function returning none exactly when it raises. -/

namespace SPA

/-- Column of length n built per index, modelling a pandas Series. -/
def seriesOfFn {α : Type} (n : Nat) (f : Nat → α) : List α := (List.range n).map f

theorem seriesOfFn_getD {α : Type} (n : Nat) (f : Nat → α) (t : Nat) (d : α) (h : t < n) :
    (seriesOfFn n f).getD t d = f t := by
  simp [seriesOfFn, List.getD, List.getElem?_map, List.getElem?_range, h]

theorem seriesOfFn_getD_ge {α : Type} (n : Nat) (f : Nat → α) (t : Nat) (d : α) (h : n ≤ t) :
    (seriesOfFn n f).getD t d = d := by
  rw [List.getD_eq_default]
  simpa [seriesOfFn] using h

theorem seriesOfFn_length {α : Type} (n : Nat) (f : Nat → α) : (seriesOfFn n f).length = n := by
  simp [seriesOfFn]

/-! ### src/execution.py -/

/-- ExecutionModel from src/execution.py: the immutable cost parameter set. -/
structure ExecutionModel where
  commission_bps : ℚ
  slippage_bps : ℚ
  spread_bps : ℚ
  borrow_cost_annual : ℚ
  periods_per_year : ℤ
deriving DecidableEq

/-- Checks of _validate_execution_model; the Python function raises ValueError
    exactly when this proposition fails. -/
def validate_execution_model (m : ExecutionModel) : Prop :=
  0 ≤ m.commission_bps ∧ 0 ≤ m.slippage_bps ∧ 0 ≤ m.spread_bps ∧
    0 ≤ m.borrow_cost_annual ∧ 0 < m.periods_per_year

instance (m : ExecutionModel) : Decidable (validate_execution_model m) := by
  unfold validate_execution_model
  infer_instance

/-- Output frame of apply_execution_costs. -/
structure CostFrame where
  cost_commission : List ℚ
  cost_spread : List ℚ
  cost_slippage : List ℚ
  cost_borrow : List ℚ
  ret_cost : List ℚ
deriving DecidableEq

/-- Body of apply_execution_costs (src/execution.py lines 60-73), after
    validation has passed.  clip(upper=0).abs() is written |min(pos, 0)|. -/
def executionCostsCore (pos_exec turnover : List ℚ) (active_return_bar : List Bool)
    (model : ExecutionModel) : CostFrame :=
  let n := pos_exec.length
  let act := fun t => active_return_bar.getD t false
  let commission := fun t => turnover.getD t 0 * (model.commission_bps / 10000)
  let spread := fun t => turnover.getD t 0 * ((model.spread_bps / 2) / 10000)
  let slippage := fun t => turnover.getD t 0 * (model.slippage_bps / 10000)
  let borrow := fun t =>
    |min (pos_exec.getD t 0) 0| * (model.borrow_cost_annual / (model.periods_per_year : ℚ))
  let cC := fun t => if act t then commission t else 0
  let cS := fun t => if act t then spread t else 0
  let cL := fun t => if act t then slippage t else 0
  let cB := fun t => if act t then borrow t else 0
  { cost_commission := seriesOfFn n cC
    cost_spread := seriesOfFn n cS
    cost_slippage := seriesOfFn n cL
    cost_borrow := seriesOfFn n cB
    ret_cost := seriesOfFn n (fun t => cC t + cS t + cL t + cB t) }

/-- apply_execution_costs from src/execution.py: validates the model and the
    shared index (equal lengths here), raising (none) on violation. -/
def apply_execution_costs (pos_exec turnover : List ℚ) (active_return_bar : List Bool)
    (model : ExecutionModel) : Option CostFrame :=
  if validate_execution_model model ∧
      turnover.length = pos_exec.length ∧ active_return_bar.length = pos_exec.length then
    some (executionCostsCore pos_exec turnover active_return_bar model)
  else none

/-! ### src/backtest.py -/

/-- The two price modes accepted by _validate_config; an unknown string raises
    and is therefore not representable here. -/
inductive PriceMode
  | open_to_open
  | close_to_close
deriving DecidableEq

/-- The three side filters accepted by _validate_inputs. -/
inductive Side
  | long
  | short
  | both
deriving DecidableEq

/-- The two order-count policies accepted by _validate_inputs. -/
inductive OrderPolicy
  | order_proxy_flip2
  | rebalance_events
deriving DecidableEq

/-- BacktestConfig from src/backtest.py.  signal_lag_bars is a Nat because
    _validate_config rejects negative lags before any processing. -/
structure BacktestConfig where
  price_mode : PriceMode
  signal_lag_bars : Nat
  commission_bps : ℚ
  slippage_bps : ℚ
  spread_bps : ℚ
  borrow_cost_annual : ℚ
  periods_per_year : ℤ
deriving DecidableEq

/-- Remaining check of _validate_config: price mode and lag sign are enforced
    by the types above. -/
def validate_config (cfg : BacktestConfig) : Prop :=
  0 < cfg.periods_per_year

instance (cfg : BacktestConfig) : Decidable (validate_config cfg) := by
  unfold validate_config
  infer_instance

/-- Input frame for backtest_positions: the Open and Close price columns and
    the raw signal column, sharing one index of length pos_raw.length. -/
structure BtInput where
  Open : List ℚ
  Close : List ℚ
  pos_raw : List ℚ
deriving DecidableEq

/-- _price_column from src/backtest.py, returning the selected column. -/
def price_column (data : BtInput) (mode : PriceMode) : List ℚ :=
  match mode with
  | .open_to_open => data.Open
  | .close_to_close => data.Close

/-- Round a rational to an integer with ties to even, the numpy rounding used
    by pandas Series.round on exact inputs. -/
def roundHalfEven (q : ℚ) : ℤ :=
  let f := ⌊q⌋
  let frac := q - f
  if frac < 1 / 2 then f
  else if 1 / 2 < frac then f + 1
  else if f % 2 = 0 then f else f + 1

/-- Series.round(d) on one cell. -/
def roundToDecimals (d : ℤ) (q : ℚ) : ℚ :=
  (roundHalfEven (q * (10 : ℚ) ^ d) : ℚ) / (10 : ℚ) ^ d

/-- _build_target_position from src/backtest.py: side clip then optional
    rounding, per cell; clip(lower=0) is max, clip(upper=0) is min. -/
def build_target_position (pos_raw : List ℚ) (long_or_short : Side)
    (round_pos_decimals : Option ℤ) : List ℚ :=
  seriesOfFn pos_raw.length (fun t =>
    let raw := pos_raw.getD t 0
    let clipped :=
      match long_or_short with
      | .long => max raw 0
      | .short => min raw 0
      | .both => raw
    match round_pos_decimals with
    | some d => roundToDecimals d clipped
    | none => clipped)

/-- Series.shift(1).fillna(0) read at index t. -/
def posPrev (pos_exec : List ℚ) (t : Nat) : ℚ :=
  if t = 0 then 0 else pos_exec.getD (t - 1) 0

/-- _compute_order_count from src/backtest.py lines 68-75. -/
def compute_order_count (pos_exec : List ℚ) (order_policy : OrderPolicy) : List ℕ :=
  let changed := fun t => pos_exec.getD t 0 ≠ posPrev pos_exec t
  match order_policy with
  | .order_proxy_flip2 =>
      seriesOfFn pos_exec.length (fun t =>
        (if changed t then 1 else 0) +
          (if posPrev pos_exec t * pos_exec.getD t 0 < 0 then 1 else 0))
  | .rebalance_events =>
      seriesOfFn pos_exec.length (fun t => if changed t then 1 else 0)

/-- The ExecutionModel built inside backtest_positions from the config. -/
def executionModelOf (cfg : BacktestConfig) : ExecutionModel :=
  { commission_bps := cfg.commission_bps
    slippage_bps := cfg.slippage_bps
    spread_bps := cfg.spread_bps
    borrow_cost_annual := cfg.borrow_cost_annual
    periods_per_year := cfg.periods_per_year }

/-- pos_target column (backtest_positions line 114). -/
def pos_target_col (data : BtInput) (long_or_short : Side)
    (round_pos_decimals : Option ℤ) : List ℚ :=
  build_target_position data.pos_raw long_or_short round_pos_decimals

/-- pos_exec column: pos_target shifted by the lag, delayed-in region 0
    (backtest_positions line 115). -/
def pos_exec_col (data : BtInput) (cfg : BacktestConfig) (long_or_short : Side)
    (round_pos_decimals : Option ℤ) : List ℚ :=
  seriesOfFn data.pos_raw.length (fun t =>
    if t < cfg.signal_lag_bars then 0
    else (pos_target_col data long_or_short round_pos_decimals).getD (t - cfg.signal_lag_bars) 0)

/-- turnover column (backtest_positions lines 118-119). -/
def turnover_col (data : BtInput) (cfg : BacktestConfig) (long_or_short : Side)
    (round_pos_decimals : Option ℤ) : List ℚ :=
  let pe := pos_exec_col data cfg long_or_short round_pos_decimals
  seriesOfFn data.pos_raw.length (fun t => |pe.getD t 0 - posPrev pe t|)

/-- One-bar-forward simple price return at index t; none at the last bar
    (backtest_positions line 123). -/
def fwdRet (data : BtInput) (cfg : BacktestConfig) (t : Nat) : Option ℚ :=
  let px := price_column data cfg.price_mode
  if t + 1 < data.pos_raw.length then some (px.getD (t + 1) 0 / px.getD t 0 - 1) else none

/-- active_return_bar column: fwd_ret.notna() (backtest_positions line 124). -/
def active_col (data : BtInput) (cfg : BacktestConfig) : List Bool :=
  seriesOfFn data.pos_raw.length (fun t => (fwdRet data cfg t).isSome)

/-- ret_gross column: (pos_exec * fwd_ret).where(active, 0)
    (backtest_positions line 128). -/
def ret_gross_col (data : BtInput) (cfg : BacktestConfig) (long_or_short : Side)
    (round_pos_decimals : Option ℤ) : List ℚ :=
  let pe := pos_exec_col data cfg long_or_short round_pos_decimals
  seriesOfFn data.pos_raw.length (fun t =>
    match fwdRet data cfg t with
    | some r => pe.getD t 0 * r
    | none => 0)

/-- Cost columns of the ledger (backtest_positions lines 129-143); the model
    was already validated, so the core computation is used directly. -/
def cost_frame (data : BtInput) (cfg : BacktestConfig) (long_or_short : Side)
    (round_pos_decimals : Option ℤ) : CostFrame :=
  executionCostsCore (pos_exec_col data cfg long_or_short round_pos_decimals)
    (turnover_col data cfg long_or_short round_pos_decimals)
    (active_col data cfg) (executionModelOf cfg)

/-- ret_net column: ret_gross - ret_cost (backtest_positions line 145). -/
def ret_net_col (data : BtInput) (cfg : BacktestConfig) (long_or_short : Side)
    (round_pos_decimals : Option ℤ) : List ℚ :=
  seriesOfFn data.pos_raw.length (fun t =>
    (ret_gross_col data cfg long_or_short round_pos_decimals).getD t 0 -
      (cost_frame data cfg long_or_short round_pos_decimals).ret_cost.getD t 0)

/-- (1 + ret).cumprod(): running products seeded at 1. -/
def cumprod1p (xs : List ℚ) : List ℚ :=
  (xs.scanl (fun acc r => acc * (1 + r)) 1).tail

/-- The full ledger produced by backtest_positions.  The scalar metrics
    summary of lines 156-178 is not modelled: no claim concerns it. -/
structure Ledger where
  pos_target : List ℚ
  pos_exec : List ℚ
  pos : List ℚ
  turnover : List ℚ
  trade_notional : List ℚ
  order_count : List ℕ
  ret_price_fwd : List (Option ℚ)
  ret_gross : List ℚ
  cost_commission : List ℚ
  cost_spread : List ℚ
  cost_slippage : List ℚ
  cost_borrow : List ℚ
  ret_cost : List ℚ
  ret_net : List ℚ
  equity_gross : List ℚ
  equity_net : List ℚ
  gross_strat_ret : List ℚ
  net_strat_ret : List ℚ
  cost : List ℚ
  equity : List ℚ
deriving DecidableEq

/-- Ledger assembly of backtest_positions (src/backtest.py lines 110-154)
    after validation has passed. -/
def backtestCore (data : BtInput) (cfg : BacktestConfig) (long_or_short : Side)
    (round_pos_decimals : Option ℤ) (order_policy : OrderPolicy) : Ledger :=
  let n := data.pos_raw.length
  let pe := pos_exec_col data cfg long_or_short round_pos_decimals
  let rg := ret_gross_col data cfg long_or_short round_pos_decimals
  let costs := cost_frame data cfg long_or_short round_pos_decimals
  let rn := ret_net_col data cfg long_or_short round_pos_decimals
  { pos_target := pos_target_col data long_or_short round_pos_decimals
    pos_exec := pe
    pos := pe
    turnover := turnover_col data cfg long_or_short round_pos_decimals
    trade_notional := turnover_col data cfg long_or_short round_pos_decimals
    order_count := compute_order_count pe order_policy
    ret_price_fwd := seriesOfFn n (fwdRet data cfg)
    ret_gross := rg
    cost_commission := costs.cost_commission
    cost_spread := costs.cost_spread
    cost_slippage := costs.cost_slippage
    cost_borrow := costs.cost_borrow
    ret_cost := costs.ret_cost
    ret_net := rn
    equity_gross := cumprod1p rg
    equity_net := cumprod1p rn
    gross_strat_ret := rg
    net_strat_ret := rn
    cost := costs.ret_cost
    equity := cumprod1p rn }

/-- backtest_positions from src/backtest.py: validation (none on the raised
    ValueError, including the model validation raised from
    apply_execution_costs), then the ledger.  Unknown enum strings and missing
    columns are unrepresentable in the input types; equal column lengths are a
    DataFrame invariant stated here explicitly. -/
def backtest_positions (data : BtInput) (cfg : BacktestConfig) (long_or_short : Side)
    (round_pos_decimals : Option ℤ) (order_policy : OrderPolicy) : Option Ledger :=
  if validate_config cfg ∧ validate_execution_model (executionModelOf cfg) ∧
      data.Open.length = data.pos_raw.length ∧ data.Close.length = data.pos_raw.length then
    some (backtestCore data cfg long_or_short round_pos_decimals order_policy)
  else none

/-! ### src/trades.py -/

/-- Side of a reconstructed trade. -/
inductive TradeSide
  | long
  | short
deriving DecidableEq

/-- The dict held in open_trade while a trade is open. -/
structure OpenTrade where
  entry_time : Nat
  side : TradeSide
  pos_size : ℚ
  entry_px : ℚ
  fallback_created : Bool
deriving DecidableEq

/-- A closed trade before the derived columns are added. -/
structure RawTrade where
  entry_time : Nat
  exit_time : Nat
  side : TradeSide
  pos_size : ℚ
  entry_px : ℚ
  exit_px : ℚ
  closed_by_end : Bool
  fallback_created : Bool
deriving DecidableEq

/-- One row of the trades frame returned by build_trades. -/
structure TradeRow where
  entry_time : Nat
  exit_time : Nat
  side : TradeSide
  pos_size : ℚ
  entry_px : ℚ
  exit_px : ℚ
  closed_by_end : Bool
  fallback_created : Bool
  bars_held : Nat
  trade_ret_net : ℚ
  trade_ret_gross : ℚ
deriving DecidableEq

/-- Loop body of build_trades (src/trades.py lines 59-93).  The state is none
    after the strict-mode RuntimeError; an unchanged bar is skipped, matching
    the iteration over df.index[changed]. -/
def tradeScanStep (strict : Bool) (pos prevp px : Nat → ℚ)
    (st : Option (List RawTrade × Option OpenTrade)) (t : Nat) :
    Option (List RawTrade × Option OpenTrade) :=
  match st with
  | none => none
  | some (trades, open0) =>
    let p_prev := prevp t
    let p_now := pos t
    let price := px t
    if p_now = p_prev then some (trades, open0)
    else
      let closeRes : Option (List RawTrade × Option OpenTrade) :=
        if p_prev ≠ 0 then
          match open0 with
          | some ot =>
              some (trades ++
                [{ entry_time := ot.entry_time, exit_time := t, side := ot.side,
                   pos_size := ot.pos_size, entry_px := ot.entry_px, exit_px := price,
                   closed_by_end := false, fallback_created := ot.fallback_created }], none)
          | none =>
              if strict then none
              else
                some (trades ++
                  [{ entry_time := t, exit_time := t,
                     side := if 0 < p_prev then TradeSide.long else TradeSide.short,
                     pos_size := p_prev, entry_px := price, exit_px := price,
                     closed_by_end := false, fallback_created := true }], none)
        else some (trades, open0)
      match closeRes with
      | none => none
      | some (trades1, open1) =>
          if p_now ≠ 0 then
            some (trades1, some
              { entry_time := t,
                side := if 0 < p_now then TradeSide.long else TradeSide.short,
                pos_size := p_now, entry_px := price, fallback_created := false })
          else some (trades1, open1)

/-- Scan of build_trades plus the close-at-end step (src/trades.py lines
    55-102), on per-index accessors.  prevp is pos.shift(1).fillna(0). -/
def build_tradesAux (n : Nat) (pos px : Nat → ℚ) (strict close_at_end : Bool) :
    Option (List RawTrade) :=
  let prevp := fun t => if t = 0 then 0 else pos (t - 1)
  match (List.range n).foldl (tradeScanStep strict pos prevp px) (some ([], none)) with
  | none => none
  | some (trades, openEnd) =>
      match openEnd with
      | some ot =>
          if close_at_end then
            some (trades ++
              [{ entry_time := ot.entry_time, exit_time := n - 1, side := ot.side,
                 pos_size := ot.pos_size, entry_px := ot.entry_px, exit_px := px (n - 1),
                 closed_by_end := true, fallback_created := ot.fallback_created }])
          else some trades
      | none => some trades

/-- Compounded return over the half-open bar range [a, b): product of
    (1 + ret) minus 1 (src/trades.py lines 128-141). -/
def compoundRet (r : Nat → ℚ) (a b : Nat) : ℚ :=
  ((List.range' a (b - a)).map (fun i => 1 + r i)).prod - 1

/-- Derived columns added per trade (src/trades.py lines 109-141). -/
def tradeRow (net_r gross_r : Nat → ℚ) (rt : RawTrade) : TradeRow :=
  { entry_time := rt.entry_time
    exit_time := rt.exit_time
    side := rt.side
    pos_size := rt.pos_size
    entry_px := rt.entry_px
    exit_px := rt.exit_px
    closed_by_end := rt.closed_by_end
    fallback_created := rt.fallback_created
    bars_held := rt.exit_time - rt.entry_time
    trade_ret_net := compoundRet net_r rt.entry_time rt.exit_time
    trade_ret_gross := compoundRet gross_r rt.entry_time rt.exit_time }

/-- build_trades from src/trades.py.  Columns are the executed position, the
    price, the net return and the gross return; NaN cells are none and the
    fillna(0) of lines 47-52 happens in the accessors.  The Nat index is
    already monotonic, so the sort of line 45 is the identity; none models the
    strict-mode RuntimeError. -/
def build_trades (posIn : List (Option ℚ)) (px : List ℚ)
    (netIn grossIn : List (Option ℚ)) (strict close_at_end : Bool) :
    Option (List TradeRow) :=
  let n := posIn.length
  let pos := fun t => ((posIn.getD t none).getD 0)
  let pxf := fun t => px.getD t 0
  let net_r := fun t => ((netIn.getD t none).getD 0)
  let gross_r := fun t => ((grossIn.getD t none).getD 0)
  (build_tradesAux n pos pxf strict close_at_end).map (List.map (tradeRow net_r gross_r))

/-- Record returned by trade_stats; np.nan cells are none. -/
structure TradeStatsOut where
  n_trades : ℕ
  win_rate : Option ℚ
  avg_win : Option ℚ
  avg_loss_abs : Option ℚ
  payoff : Option ℚ
  expectancy : Option ℚ
  kelly : Option ℚ
  half_kelly : Option ℚ
  quarter_kelly : Option ℚ
deriving DecidableEq

/-- wins local of trade_stats: r[r greater than 0]. -/
def winsOf (r : List ℚ) : List ℚ := r.filter (fun x => decide (0 < x))

/-- losses local of trade_stats: r[r less than 0]. -/
def lossesOf (r : List ℚ) : List ℚ := r.filter (fun x => decide (x < 0))

/-- p local of trade_stats: (r greater than 0).mean(), the count of wins over
    the length. -/
def winRateOf (r : List ℚ) : ℚ :=
  (r.countP (fun x => decide (0 < x)) : ℚ) / (r.length : ℚ)

/-- avg_win local of trade_stats. -/
def avgWinOf (r : List ℚ) : ℚ :=
  if 0 < (winsOf r).length then (winsOf r).sum / ((winsOf r).length : ℚ) else 0

/-- avg_loss_abs local of trade_stats. -/
def avgLossAbsOf (r : List ℚ) : ℚ :=
  if 0 < (lossesOf r).length then
    ((lossesOf r).map (fun x => -x)).sum / ((lossesOf r).length : ℚ)
  else 0

/-- payoff local of trade_stats: np.nan (none) when avg_loss_abs is not
    positive. -/
def payoffOf (r : List ℚ) : Option ℚ :=
  if 0 < avgLossAbsOf r then some (avgWinOf r / avgLossAbsOf r) else none

/-- kelly local of trade_stats: the binary Kelly formula when payoff is finite
    and positive, np.nan (none) otherwise. -/
def kellyOf (r : List ℚ) : Option ℚ :=
  match payoffOf r with
  | some b => if 0 < b then some ((b * winRateOf r - (1 - winRateOf r)) / b) else none
  | none => none

/-- trade_stats from src/trades.py lines 145-190, on the selected return
    column. -/
def trade_stats (r : List ℚ) : TradeStatsOut :=
  if r.length = 0 then
    { n_trades := 0, win_rate := none, avg_win := none, avg_loss_abs := none,
      payoff := none, expectancy := none, kelly := none, half_kelly := none,
      quarter_kelly := none }
  else
    { n_trades := r.length, win_rate := some (winRateOf r), avg_win := some (avgWinOf r),
      avg_loss_abs := some (avgLossAbsOf r), payoff := payoffOf r,
      expectancy := some (winRateOf r * avgWinOf r - (1 - winRateOf r) * avgLossAbsOf r),
      kelly := kellyOf r, half_kelly := (kellyOf r).map (fun k => (1 / 2 : ℚ) * k),
      quarter_kelly := (kellyOf r).map (fun k => (1 / 4 : ℚ) * k) }

/-- Keys of the dict returned by trade_stats (src/trades.py lines 180-190) on
    a nonempty trade set; the empty-input dict of lines 147-157 has the same
    keys. -/
def trade_stats_keys : List String :=
  ["n_trades", "win_rate", "avg_win", "avg_loss_abs", "payoff", "expectancy",
   "kelly", "half_kelly", "quarter_kelly"]

/-! ### Helper lemmas and concrete fixtures -/

theorem backtest_positions_eq_some (data : BtInput) (cfg : BacktestConfig) (s : Side)
    (r : Option ℤ) (p : OrderPolicy) (l : Ledger)
    (h : backtest_positions data cfg s r p = some l) :
    l = backtestCore data cfg s r p := by
  unfold backtest_positions at h
  split at h
  · exact (Option.some_inj.mp h).symm
  · exact absurd h (by simp)

theorem backtest_positions_valid (data : BtInput) (cfg : BacktestConfig) (s : Side)
    (r : Option ℤ) (p : OrderPolicy) (l : Ledger)
    (h : backtest_positions data cfg s r p = some l) :
    validate_config cfg ∧ validate_execution_model (executionModelOf cfg) := by
  unfold backtest_positions at h
  split at h
  · next hc => exact ⟨hc.1, hc.2.1⟩
  · exact absurd h (by simp)

theorem pos_exec_col_length (data : BtInput) (cfg : BacktestConfig) (s : Side)
    (r : Option ℤ) : (pos_exec_col data cfg s r).length = data.pos_raw.length := by
  simp [pos_exec_col, seriesOfFn_length]

theorem cost_frame_ret_cost_length (data : BtInput) (cfg : BacktestConfig) (s : Side)
    (r : Option ℤ) : (cost_frame data cfg s r).ret_cost.length = data.pos_raw.length := by
  simp [cost_frame, executionCostsCore, seriesOfFn_length, pos_exec_col_length]

/-- Config of the concrete spec examples: the defaults with side chosen per
    call (lag 1, open-to-open, all rates 0, 252 periods per year). -/
def cfgLag1 : BacktestConfig :=
  { price_mode := PriceMode.open_to_open, signal_lag_bars := 1, commission_bps := 0,
    slippage_bps := 0, spread_bps := 0, borrow_cost_annual := 0, periods_per_year := 252 }

/-- Input of the concrete example of claim C2. -/
def dataC2 : BtInput :=
  { Open := [100, 101, 102, 103], Close := [201 / 2, 203 / 2, 205 / 2, 207 / 2],
    pos_raw := [1, 0, -1, 1] }

/-- Input whose executed position performs the direct flip +1 to -1 at bar 2. -/
def dataFlip : BtInput :=
  { Open := [1, 1, 1], Close := [1, 1, 1], pos_raw := [1, -1, 0] }

/-! ### Claim theorems -/

/-- Claim C1: for every valid configuration and every bar t of the ledger
    returned by backtest_positions, ret_net[t] equals
    ret_gross[t] - ret_cost[t] exactly. -/
theorem C1_ret_net_eq_gross_sub_cost (data : BtInput) (cfg : BacktestConfig) (s : Side)
    (r : Option ℤ) (p : OrderPolicy) (l : Ledger)
    (h : backtest_positions data cfg s r p = some l) (t : Nat) :
    l.ret_net.getD t 0 = l.ret_gross.getD t 0 - l.ret_cost.getD t 0 := by
  have hl := backtest_positions_eq_some data cfg s r p l h
  subst hl
  show (ret_net_col data cfg s r).getD t 0 =
    (ret_gross_col data cfg s r).getD t 0 - (cost_frame data cfg s r).ret_cost.getD t 0
  by_cases ht : t < data.pos_raw.length
  · rw [ret_net_col, seriesOfFn_getD _ _ _ _ ht]
  · push_neg at ht
    rw [ret_net_col, seriesOfFn_getD_ge _ _ _ _ ht]
    rw [ret_gross_col, seriesOfFn_getD_ge _ _ _ _ ht]
    rw [List.getD_eq_default _ _ (by rw [cost_frame_ret_cost_length]; exact ht)]
    norm_num

/-- Witness for C1 at the concrete C2 example input, bar 1. -/
theorem C1_witness :
    (backtestCore dataC2 cfgLag1 Side.both none OrderPolicy.order_proxy_flip2).ret_net.getD 1 0 =
      (backtestCore dataC2 cfgLag1 Side.both none OrderPolicy.order_proxy_flip2).ret_gross.getD 1 0 -
        (backtestCore dataC2 cfgLag1 Side.both none OrderPolicy.order_proxy_flip2).ret_cost.getD 1 0 :=
  C1_ret_net_eq_gross_sub_cost dataC2 cfgLag1 Side.both none OrderPolicy.order_proxy_flip2 _ rfl 1

/-- Claim C2: with signal lag k, pos_exec[t] = pos_target[t-k] for t at least
    k, pos_exec[t] = 0 for t below k, and on the concrete input
    Open=[100,101,102,103], raw signal=[1,0,-1,1], lag=1, side=both the
    executed position column is [0,1,0,-1]. -/
theorem C2_pos_exec_lag_semantics (data : BtInput) (cfg : BacktestConfig) (s : Side)
    (r : Option ℤ) (p : OrderPolicy) (l : Ledger)
    (h : backtest_positions data cfg s r p = some l) :
    (∀ t, cfg.signal_lag_bars ≤ t → t < data.pos_raw.length →
        l.pos_exec.getD t 0 = l.pos_target.getD (t - cfg.signal_lag_bars) 0)
    ∧ (∀ t, t < cfg.signal_lag_bars → l.pos_exec.getD t 0 = 0)
    ∧ (backtest_positions dataC2 cfgLag1 Side.both none OrderPolicy.order_proxy_flip2).map
        Ledger.pos_exec = some [0, 1, 0, -1] := by
  have hl := backtest_positions_eq_some data cfg s r p l h
  subst hl
  refine ⟨?_, ?_, ?_⟩
  · intro t hk hn
    show (pos_exec_col data cfg s r).getD t 0 = (pos_target_col data s r).getD _ 0
    rw [pos_exec_col, seriesOfFn_getD _ _ _ _ hn, if_neg (not_lt.mpr hk)]
  · intro t hk
    show (pos_exec_col data cfg s r).getD t 0 = 0
    by_cases hn : t < data.pos_raw.length
    · rw [pos_exec_col, seriesOfFn_getD _ _ _ _ hn, if_pos hk]
    · exact seriesOfFn_getD_ge _ _ _ _ (not_lt.mp hn)
  · rfl

/-- Witness for C2: the concrete example instantiated at lag bar 0 and the
    shifted bar 1. -/
theorem C2_witness :
    (backtestCore dataC2 cfgLag1 Side.both none OrderPolicy.order_proxy_flip2).pos_exec.getD 0 0 = 0 ∧
      (backtestCore dataC2 cfgLag1 Side.both none OrderPolicy.order_proxy_flip2).pos_exec.getD 1 0 =
        (backtestCore dataC2 cfgLag1 Side.both none OrderPolicy.order_proxy_flip2).pos_target.getD 0 0 := by
  have h := C2_pos_exec_lag_semantics dataC2 cfgLag1 Side.both none
    OrderPolicy.order_proxy_flip2 _ rfl
  exact ⟨h.2.1 0 (by norm_num [cfgLag1]), h.1 1 (by norm_num [cfgLag1]) (by norm_num [dataC2])⟩

/-- Claim C5: under flip-as-two-orders, a changed bar counts one order plus
    one more when the sign flipped, an unchanged bar counts zero, and the
    direct flip from +1 to -1 gets order_count 2 and turnover 2. -/
theorem C5_order_count_flip2 (pos_exec : List ℚ) (t : Nat) (ht : t < pos_exec.length) :
    ((pos_exec.getD t 0 ≠ posPrev pos_exec t →
        (compute_order_count pos_exec OrderPolicy.order_proxy_flip2).getD t 0 =
          1 + (if posPrev pos_exec t * pos_exec.getD t 0 < 0 then 1 else 0))
      ∧ (pos_exec.getD t 0 = posPrev pos_exec t →
        (compute_order_count pos_exec OrderPolicy.order_proxy_flip2).getD t 0 = 0))
    ∧ ((backtest_positions dataFlip cfgLag1 Side.both none OrderPolicy.order_proxy_flip2).map
        (fun l => l.order_count.getD 2 0) = some 2
      ∧ (backtest_positions dataFlip cfgLag1 Side.both none OrderPolicy.order_proxy_flip2).map
        (fun l => l.turnover.getD 2 0) = some 2) := by
  have hpe : pos_exec_col dataFlip cfgLag1 Side.both none = [0, 1, -1] := rfl
  refine ⟨⟨?_, ?_⟩, ?_, ?_⟩
  · intro hch
    show (seriesOfFn pos_exec.length _).getD t 0 = _
    rw [seriesOfFn_getD _ _ _ _ ht, if_pos hch]
  · intro hch
    show (seriesOfFn pos_exec.length _).getD t 0 = 0
    rw [seriesOfFn_getD _ _ _ _ ht, if_neg (not_not_intro hch), hch,
      if_neg (not_lt.mpr (mul_self_nonneg _))]
  · rw [show backtest_positions dataFlip cfgLag1 Side.both none OrderPolicy.order_proxy_flip2 =
        some (backtestCore dataFlip cfgLag1 Side.both none OrderPolicy.order_proxy_flip2) from rfl]
    show some ((compute_order_count (pos_exec_col dataFlip cfgLag1 Side.both none)
      OrderPolicy.order_proxy_flip2).getD 2 0) = some 2
    rw [hpe]
    norm_num [compute_order_count, seriesOfFn, posPrev, List.range_succ]
  · rw [show backtest_positions dataFlip cfgLag1 Side.both none OrderPolicy.order_proxy_flip2 =
        some (backtestCore dataFlip cfgLag1 Side.both none OrderPolicy.order_proxy_flip2) from rfl]
    show some ((turnover_col dataFlip cfgLag1 Side.both none).getD 2 0) = some 2
    rw [show turnover_col dataFlip cfgLag1 Side.both none =
        seriesOfFn 3 (fun t => |(pos_exec_col dataFlip cfgLag1 Side.both none).getD t 0 -
          posPrev (pos_exec_col dataFlip cfgLag1 Side.both none) t|) from rfl, hpe]
    norm_num [seriesOfFn, posPrev, List.range_succ]

/-- Witness for C5: the flip example, changed bar 2 and unchanged bar 0 of its
    executed position column. -/
theorem C5_witness :
    (compute_order_count (pos_exec_col dataFlip cfgLag1 Side.both none)
        OrderPolicy.order_proxy_flip2).getD 2 0 =
      1 + (if posPrev (pos_exec_col dataFlip cfgLag1 Side.both none) 2 *
          (pos_exec_col dataFlip cfgLag1 Side.both none).getD 2 0 < 0 then 1 else 0) := by
  have h := C5_order_count_flip2 (pos_exec_col dataFlip cfgLag1 Side.both none) 2
    (by rw [pos_exec_col_length]; norm_num [dataFlip])
  refine h.1.1 ?_
  rw [show pos_exec_col dataFlip cfgLag1 Side.both none = [0, 1, -1] from rfl]
  norm_num [posPrev]

/-- Claim C7: for every non-empty input, the final bar of the ledger has
    ret_gross exactly 0 and ret_cost exactly 0, both gated on the
    has-forward-return flag that is false at the last bar. -/
theorem C7_last_bar_zero (data : BtInput) (cfg : BacktestConfig) (s : Side)
    (r : Option ℤ) (p : OrderPolicy) (l : Ledger)
    (h : backtest_positions data cfg s r p = some l) (hn : 0 < data.pos_raw.length) :
    l.ret_gross.getD (data.pos_raw.length - 1) 0 = 0 ∧
      l.ret_cost.getD (data.pos_raw.length - 1) 0 = 0 := by
  have hl := backtest_positions_eq_some data cfg s r p l h
  subst hl
  have hlast : data.pos_raw.length - 1 < data.pos_raw.length := by omega
  have hfwd : fwdRet data cfg (data.pos_raw.length - 1) = none := by
    unfold fwdRet
    rw [if_neg (by omega)]
  constructor
  · show (ret_gross_col data cfg s r).getD _ 0 = 0
    rw [ret_gross_col, seriesOfFn_getD _ _ _ _ hlast]
    simp [hfwd]
  · show (cost_frame data cfg s r).ret_cost.getD _ 0 = 0
    have hact : (active_col data cfg).getD (data.pos_raw.length - 1) false = false := by
      rw [active_col, seriesOfFn_getD _ _ _ _ hlast, hfwd]
      rfl
    rw [cost_frame, executionCostsCore]
    rw [seriesOfFn_getD _ _ _ _ (by rw [pos_exec_col_length]; exact hlast)]
    simp only [List.getD, List.get?_eq_getElem?] at hact
    simp [hact]

/-- Witness for C7 at the concrete C2 example input. -/
theorem C7_witness :
    (backtestCore dataC2 cfgLag1 Side.both none OrderPolicy.order_proxy_flip2).ret_gross.getD 3 0 = 0 ∧
      (backtestCore dataC2 cfgLag1 Side.both none OrderPolicy.order_proxy_flip2).ret_cost.getD 3 0 = 0 :=
  C7_last_bar_zero dataC2 cfgLag1 Side.both none OrderPolicy.order_proxy_flip2 _ rfl
    (by norm_num [dataC2])

/-- Claim C9: in every ledger returned by backtest_positions, the legacy alias
    columns equal their canonical counterparts exactly: pos = pos_exec,
    gross_strat_ret = ret_gross, net_strat_ret = ret_net, cost = ret_cost and
    equity = equity_net. -/
theorem C9_legacy_aliases (data : BtInput) (cfg : BacktestConfig) (s : Side)
    (r : Option ℤ) (p : OrderPolicy) (l : Ledger)
    (h : backtest_positions data cfg s r p = some l) :
    l.pos = l.pos_exec ∧ l.gross_strat_ret = l.ret_gross ∧ l.net_strat_ret = l.ret_net ∧
      l.cost = l.ret_cost ∧ l.equity = l.equity_net := by
  have hl := backtest_positions_eq_some data cfg s r p l h
  subst hl
  exact ⟨rfl, rfl, rfl, rfl, rfl⟩

/-- Witness for C9 at the concrete C2 example input. -/
theorem C9_witness :
    (backtestCore dataC2 cfgLag1 Side.both none OrderPolicy.order_proxy_flip2).pos =
      (backtestCore dataC2 cfgLag1 Side.both none OrderPolicy.order_proxy_flip2).pos_exec :=
  (C9_legacy_aliases dataC2 cfgLag1 Side.both none OrderPolicy.order_proxy_flip2 _ rfl).1

/-- Claim C4: for every valid cost-model parameter set and same-index inputs
    with nonnegative turnover, apply_execution_costs returns the four
    per-component formulas, each zeroed on inactive bars, all nonnegative,
    with ret_cost equal to their sum. -/
theorem C4_cost_components (pos_exec turnover : List ℚ) (active : List Bool)
    (m : ExecutionModel) (c : CostFrame)
    (h : apply_execution_costs pos_exec turnover active m = some c)
    (hturn : ∀ x ∈ turnover, 0 ≤ x) :
    (∀ t, t < pos_exec.length →
      (c.cost_commission.getD t 0 =
          if active.getD t false then turnover.getD t 0 * (m.commission_bps / 10000) else 0)
        ∧ (c.cost_spread.getD t 0 =
          if active.getD t false then turnover.getD t 0 * ((m.spread_bps / 2) / 10000) else 0)
        ∧ (c.cost_slippage.getD t 0 =
          if active.getD t false then turnover.getD t 0 * (m.slippage_bps / 10000) else 0)
        ∧ (c.cost_borrow.getD t 0 =
          if active.getD t false then
            |min (pos_exec.getD t 0) 0| * (m.borrow_cost_annual / (m.periods_per_year : ℚ))
          else 0)
        ∧ c.ret_cost.getD t 0 = c.cost_commission.getD t 0 + c.cost_spread.getD t 0 +
            c.cost_slippage.getD t 0 + c.cost_borrow.getD t 0)
    ∧ (∀ t, 0 ≤ c.cost_commission.getD t 0 ∧ 0 ≤ c.cost_spread.getD t 0 ∧
        0 ≤ c.cost_slippage.getD t 0 ∧ 0 ≤ c.cost_borrow.getD t 0) := by
  have hg : validate_execution_model m ∧ turnover.length = pos_exec.length ∧
      active.length = pos_exec.length := by
    unfold apply_execution_costs at h
    split at h
    · next hv => exact hv
    · exact absurd h (by simp)
  have hc : c = executionCostsCore pos_exec turnover active m := by
    unfold apply_execution_costs at h
    rw [if_pos hg] at h
    exact (Option.some_inj.mp h).symm
  subst hc
  obtain ⟨⟨hcm, hsl, hsp, hbr, hpy⟩, hlt, hla⟩ := hg
  have hturn0 : ∀ t, 0 ≤ turnover.getD t 0 := by
    intro t
    by_cases ht : t < turnover.length
    · rw [List.getD_eq_getElem _ _ ht]
      exact hturn _ (List.getElem_mem ht)
    · rw [List.getD_eq_default _ _ (not_lt.mp ht)]
  have hppy : (0 : ℚ) ≤ (m.periods_per_year : ℚ) := by exact_mod_cast hpy.le
  constructor
  · intro t ht
    simp only [executionCostsCore]
    rw [seriesOfFn_getD _ _ _ _ ht, seriesOfFn_getD _ _ _ _ ht, seriesOfFn_getD _ _ _ _ ht,
      seriesOfFn_getD _ _ _ _ ht, seriesOfFn_getD _ _ _ _ ht]
    exact ⟨rfl, rfl, rfl, rfl, rfl⟩
  · intro t
    by_cases ht : t < pos_exec.length
    · simp only [executionCostsCore]
      rw [seriesOfFn_getD _ _ _ _ ht, seriesOfFn_getD _ _ _ _ ht, seriesOfFn_getD _ _ _ _ ht,
        seriesOfFn_getD _ _ _ _ ht]
      refine ⟨?_, ?_, ?_, ?_⟩
      · split
        · exact mul_nonneg (hturn0 t) (div_nonneg hcm (by norm_num))
        · exact le_refl 0
      · split
        · exact mul_nonneg (hturn0 t) (div_nonneg (div_nonneg hsp (by norm_num)) (by norm_num))
        · exact le_refl 0
      · split
        · exact mul_nonneg (hturn0 t) (div_nonneg hsl (by norm_num))
        · exact le_refl 0
      · split
        · exact mul_nonneg (abs_nonneg _) (div_nonneg hbr hppy)
        · exact le_refl 0
    · push_neg at ht
      simp only [executionCostsCore]
      rw [seriesOfFn_getD_ge _ _ _ _ ht, seriesOfFn_getD_ge _ _ _ _ ht,
        seriesOfFn_getD_ge _ _ _ _ ht, seriesOfFn_getD_ge _ _ _ _ ht]
      exact ⟨le_refl 0, le_refl 0, le_refl 0, le_refl 0⟩

/-- Cost model of the C4 witness: commission 1 bps, slippage 2 bps, spread
    3 bps, borrow rate 4 annual, 252 periods per year. -/
def mC4 : ExecutionModel :=
  { commission_bps := 1, slippage_bps := 2, spread_bps := 3, borrow_cost_annual := 4,
    periods_per_year := 252 }

/-- Witness for C4 at a concrete short bar with active flag true. -/
theorem C4_witness :
    ((executionCostsCore [(-1 : ℚ), 1] [1, 2] [true, false] mC4).cost_borrow.getD 0 0 =
      if ([true, false] : List Bool).getD 0 false then
        |min (([(-1 : ℚ), 1]).getD 0 0) 0| * (mC4.borrow_cost_annual / (mC4.periods_per_year : ℚ))
      else 0)
    ∧ 0 ≤ (executionCostsCore [(-1 : ℚ), 1] [1, 2] [true, false] mC4).cost_commission.getD 0 0 := by
  have h := C4_cost_components [(-1 : ℚ), 1] [1, 2] [true, false] mC4
    (executionCostsCore [(-1 : ℚ), 1] [1, 2] [true, false] mC4) rfl
    (by intro x hx
        simp only [List.mem_cons, List.not_mem_nil, or_false] at hx
        rcases hx with rfl | rfl <;> norm_num)
  exact ⟨(h.1 0 (by norm_num)).2.2.2.1, (h.2 0).1⟩

/-- Claim C3: the position pattern 0, +1, +1, -1, -1 yields exactly two
    trades, a long one closed at the flip bar and a short one opened at the
    same bar index and price, each with compounded net and gross return over
    the half-open range from entry index to exit index. -/
theorem C3_flip_two_trades (p0 p1 p2 p3 p4 n0 n1 n2 n3 n4 g0 g1 g2 g3 g4 : ℚ) :
    build_trades [some 0, some 1, some 1, some (-1), some (-1)]
        [p0, p1, p2, p3, p4] [some n0, some n1, some n2, some n3, some n4]
        [some g0, some g1, some g2, some g3, some g4] true true
      = some [{ entry_time := 1, exit_time := 3, side := TradeSide.long, pos_size := 1,
                entry_px := p1, exit_px := p3, closed_by_end := false,
                fallback_created := false, bars_held := 2,
                trade_ret_net := (1 + n1) * (1 + n2) - 1,
                trade_ret_gross := (1 + g1) * (1 + g2) - 1 },
              { entry_time := 3, exit_time := 4, side := TradeSide.short, pos_size := -1,
                entry_px := p3, exit_px := p4, closed_by_end := true,
                fallback_created := false, bars_held := 1,
                trade_ret_net := (1 + n3) - 1, trade_ret_gross := (1 + g3) - 1 }] := by
  rw [show build_trades [some 0, some 1, some 1, some (-1), some (-1)]
        [p0, p1, p2, p3, p4] [some n0, some n1, some n2, some n3, some n4]
        [some g0, some g1, some g2, some g3, some g4] true true
      = (some [{ entry_time := 1, exit_time := 3, side := TradeSide.long, pos_size := 1,
                 entry_px := p1, exit_px := p3, closed_by_end := false,
                 fallback_created := false },
               { entry_time := 3, exit_time := 4, side := TradeSide.short, pos_size := -1,
                 entry_px := p3, exit_px := p4, closed_by_end := true,
                 fallback_created := false }] : Option (List RawTrade)).map
          (List.map (tradeRow
            (fun t => (([some n0, some n1, some n2, some n3, some n4].getD t none).getD 0))
            (fun t => (([some g0, some g1, some g2, some g3, some g4].getD t none).getD 0))))
    from rfl]
  simp only [Option.map_some', List.map_cons, List.map_nil, tradeRow, compoundRet]
  norm_num [show List.range' 1 2 = [1, 2] from rfl, show List.range' 3 1 = [3] from rfl]

/-- Claim C10: NaN cells in the position column are treated as flat and NaN
    cells in the return columns as zero-return bars: filling them with zero
    before reconstruction changes nothing. -/
theorem C10_nan_fillna (posIn netIn grossIn : List (Option ℚ)) (px : List ℚ)
    (strict close_at_end : Bool) :
    build_trades posIn px netIn grossIn strict close_at_end =
      build_trades (posIn.map (fun o => some (o.getD 0))) px
        (netIn.map (fun o => some (o.getD 0))) (grossIn.map (fun o => some (o.getD 0)))
        strict close_at_end := by
  have hacc : ∀ (xs : List (Option ℚ)),
      (fun t => (((xs.map (fun o => some (o.getD 0))).getD t none).getD 0)) =
        (fun t => ((xs.getD t none).getD 0)) := by
    intro xs
    funext t
    by_cases ht : t < xs.length
    · rw [List.getD_eq_getElem _ _ (by simpa using ht), List.getElem_map,
        List.getD_eq_getElem _ _ ht]
      rfl
    · rw [List.getD_eq_default _ _ (by simpa using not_lt.mp ht),
        List.getD_eq_default _ _ (not_lt.mp ht)]
  simp only [build_trades, List.length_map, hacc]

/-- Claim C6: contrary to the claim (and to tests/test_trades.py), the dict
    returned by trade_stats carries no streak or holding-length statistics:
    none of the four asserted keys is among its keys. -/
theorem C6_trade_stats_keys_missing :
    ("max_consecutive_wins" ∉ trade_stats_keys) ∧
      ("max_consecutive_losses" ∉ trade_stats_keys) ∧
      ("avg_holding_bars" ∉ trade_stats_keys) ∧
      ("avg_holding_days" ∉ trade_stats_keys) := by
  decide

/-- Claim C8: with zero losing trades payoff and all Kelly fields are NaN
    (none) and nothing is raised; kelly equals the binary Kelly formula
    exactly when payoff is finite and positive, and is NaN whenever payoff is
    undefined or non-positive. -/
theorem C8_kelly_semantics (r : List ℚ) :
    ((∀ x ∈ r, 0 ≤ x) → (trade_stats r).payoff = none ∧ (trade_stats r).kelly = none ∧
        (trade_stats r).half_kelly = none ∧ (trade_stats r).quarter_kelly = none)
    ∧ (∀ b p, (trade_stats r).payoff = some b → (trade_stats r).win_rate = some p → 0 < b →
        (trade_stats r).kelly = some ((b * p - (1 - p)) / b) ∧
        (trade_stats r).half_kelly = some ((1 / 2 : ℚ) * ((b * p - (1 - p)) / b)) ∧
        (trade_stats r).quarter_kelly = some ((1 / 4 : ℚ) * ((b * p - (1 - p)) / b)))
    ∧ ((trade_stats r).payoff = none → (trade_stats r).kelly = none ∧
        (trade_stats r).half_kelly = none ∧ (trade_stats r).quarter_kelly = none)
    ∧ (∀ b, (trade_stats r).payoff = some b → b ≤ 0 → (trade_stats r).kelly = none ∧
        (trade_stats r).half_kelly = none ∧ (trade_stats r).quarter_kelly = none) := by
  by_cases hr : r.length = 0
  · simp [trade_stats, hr]
  · have hpay : (trade_stats r).payoff = payoffOf r := by
      unfold trade_stats
      rw [if_neg hr]
    have hwr : (trade_stats r).win_rate = some (winRateOf r) := by
      unfold trade_stats
      rw [if_neg hr]
    have hkel : (trade_stats r).kelly = kellyOf r := by
      unfold trade_stats
      rw [if_neg hr]
    have hhalf : (trade_stats r).half_kelly = (kellyOf r).map (fun k => (1 / 2 : ℚ) * k) := by
      unfold trade_stats
      rw [if_neg hr]
    have hquarter : (trade_stats r).quarter_kelly =
        (kellyOf r).map (fun k => (1 / 4 : ℚ) * k) := by
      unfold trade_stats
      rw [if_neg hr]
    refine ⟨?_, ?_, ?_, ?_⟩
    · intro hnn
      have hL : lossesOf r = [] := by
        unfold lossesOf
        rw [List.filter_eq_nil_iff]
        intro a ha
        simpa using not_lt.mpr (hnn a ha)
      have hAL : avgLossAbsOf r = 0 := by
        unfold avgLossAbsOf
        rw [hL]
        simp
      have hP : payoffOf r = none := by
        unfold payoffOf
        rw [hAL]
        simp
      have hK : kellyOf r = none := by
        unfold kellyOf
        rw [hP]
      rw [hpay, hkel, hhalf, hquarter, hP, hK]
      simp
    · intro b p hb hp hbpos
      rw [hpay] at hb
      rw [hwr] at hp
      have hpp : p = winRateOf r := (Option.some_inj.mp hp).symm
      have hK : kellyOf r = some ((b * winRateOf r - (1 - winRateOf r)) / b) := by
        unfold kellyOf
        rw [hb]
        exact if_pos hbpos
      rw [hkel, hhalf, hquarter, hK, hpp]
      simp
    · intro h0
      rw [hpay] at h0
      have hK : kellyOf r = none := by
        unfold kellyOf
        rw [h0]
      rw [hkel, hhalf, hquarter, hK]
      simp
    · intro b hb hle
      rw [hpay] at hb
      have hK : kellyOf r = none := by
        unfold kellyOf
        rw [hb]
        exact if_neg (not_lt.mpr hle)
      rw [hkel, hhalf, hquarter, hK]
      simp

/-- Witness for C8: two trades 2 and -1 give payoff 2, win rate one half and
    the Kelly formula value; all-winning trades give payoff none. -/
theorem C8_witness :
    (trade_stats [2, -1]).kelly = some (((2 : ℚ) * (1 / 2) - (1 - 1 / 2)) / 2) ∧
      (trade_stats [(1 : ℚ), 2]).payoff = none := by
  constructor
  · have h1 : (trade_stats [2, -1]).payoff = some 2 := by
      norm_num [trade_stats, payoffOf, avgLossAbsOf, avgWinOf, lossesOf, winsOf, List.filter]
    have h2 : (trade_stats [2, -1]).win_rate = some (1 / 2) := by
      norm_num [trade_stats, winRateOf, List.countP_cons]
    exact ((C8_kelly_semantics [2, -1]).2.1 2 (1 / 2) h1 h2 (by norm_num)).1
  · refine ((C8_kelly_semantics [(1 : ℚ), 2]).1 ?_).1
    intro x hx
    simp only [List.mem_cons, List.not_mem_nil, or_false] at hx
    rcases hx with rfl | rfl <;> norm_num

end SPA
